import Mathlib

/-!
Verification of the fault-injection and telemetry engine of the
observability demo web app (`src/web-app/main.py`).

The Python module is embedded shallowly:

* Environment configuration (`SIM_BAD`, `ERROR_RATE`, `LATENCY_SIMULATION`,
  `MAX_LATENCY`, `OUTAGE_SIMULATION`) becomes the `Config` structure.
* `random.random()` draws are modelled by an explicit stream `f : ℕ → ℚ`
  of values in `[0,1)` together with a cursor index; every function that
  draws returns the advanced cursor, so "a draw was never taken" is
  visible as an unchanged cursor.
* Python floats are modelled as exact rationals `ℚ`.
* The handlers `root` and `users` are modelled as the ordered list of
  observable side effects (events) they emit.
* The Prometheus in-flight gauge is modelled as a function from label
  keys to integers, with an explicit operation list.
-/

namespace ObsDemo

/-- Simulation configuration, from the module-level environment reads
(`SIM_BAD`, `ERROR_RATE`, `LATENCY_SIMULATION`, `MAX_LATENCY`,
`OUTAGE_SIMULATION` in `main.py`). -/
structure Config where
  simBad : Bool
  errorRate : ℚ
  latencySim : Bool
  maxLatency : ℚ
  outageSim : Bool
deriving DecidableEq

/-- `ERROR_RATE_ENV = float(os.getenv("ERROR_RATE", "0.2"))`: the raw parsed
value is stored as-is; `main.py` performs no validation or clamping. -/
def load_error_rate (raw : ℚ) : ℚ := raw

/-- Clamp a rational into `[0,1]` (what the spec asks config loading to do). -/
def clamp01 (x : ℚ) : ℚ := max 0 (min 1 x)

/-- A copy of a configuration whose error rate has been clamped to `[0,1]`. -/
def clampConfig (cfg : Config) : Config :=
  ⟨cfg.simBad, clamp01 cfg.errorRate, cfg.latencySim, cfg.maxLatency, cfg.outageSim⟩

/-- `simulate_outage` in `main.py`: when `OUTAGE_SIMULATION and SIM_BAD`,
draw `random.random()` and fire iff the draw is below `0.05`; otherwise
return `False` without drawing. -/
def simulate_outage (cfg : Config) (f : ℕ → ℚ) (i : ℕ) : Bool × ℕ :=
  if cfg.outageSim && cfg.simBad then (decide (f i < 1/20), i + 1)
  else (false, i)

/-- `simulate_error_rate` in `main.py`: when `SIM_BAD`, draw
`random.random()` and fire iff the draw is below `ERROR_RATE_ENV`;
otherwise return `False` without drawing. -/
def simulate_error_rate (cfg : Config) (f : ℕ → ℚ) (i : ℕ) : Bool × ℕ :=
  if cfg.simBad then (decide (f i < cfg.errorRate), i + 1)
  else (false, i)

/-- The failure classification `health_sim` records on its span
(`failure.type` attribute: `outage`, `error_rate`, or `none`). -/
inductive FailureType
  | outage
  | errorRate
  | healthy
deriving DecidableEq

/-- `health_sim` in `main.py`: check `simulate_outage()` first and return
unhealthy immediately when it fires (the error-rate check is never run);
otherwise check `simulate_error_rate()`; otherwise healthy.  The returned
`Bool` is the function's Python return value, the `FailureType` is the
`failure.type` span attribute it sets on that path. -/
def health_sim (cfg : Config) (f : ℕ → ℚ) (i : ℕ) : (Bool × FailureType) × ℕ :=
  let o := simulate_outage cfg f i
  if o.1 then ((false, FailureType.outage), o.2)
  else
    let e := simulate_error_rate cfg f o.2
    if e.1 then ((false, FailureType.errorRate), e.2)
    else ((true, FailureType.healthy), e.2)

/-- `simulate_latency` in `main.py`: when `LATENCY_SIMULATION and SIM_BAD`,
return `random.uniform(0.1, MAX_LATENCY)`, i.e. `0.1 + (MAX_LATENCY - 0.1) * u`
for a fresh draw `u`; otherwise return the fixed baseline `0.01`. -/
def simulate_latency (cfg : Config) (f : ℕ → ℚ) (i : ℕ) : ℚ × ℕ :=
  if cfg.latencySim && cfg.simBad then (1/10 + (cfg.maxLatency - 1/10) * f i, i + 1)
  else (1/100, i)

/-- One step of the error-rate update in `after_request`:
`new_rate = current_error_rate * 0.9 + (1.0 if is_error else 0.0) * 0.1`. -/
def ewmaStep (isError : Bool) (r : ℚ) : ℚ :=
  r * (9/10) + (if isError then 1 else 0) * (1/10)

/-- `n` consecutive `after_request` error-rate updates with a constant
error outcome, starting from rate `r`. -/
def ewmaN (isError : Bool) : ℕ → ℚ → ℚ
  | 0, r => r
  | n + 1, r => ewmaStep isError (ewmaN isError n r)

/-- The error-rate state transition performed by `after_request` on the
gauge value: the EWMA write is guarded by `if endpoint != 'metrics'`, and
`is_error = response.status_code >= 400`. -/
def update_error_rate (endpoint : String) (statusCode : ℕ) (r : ℚ) : ℚ :=
  if endpoint = "metrics" then r
  else ewmaStep (decide (400 ≤ statusCode)) r

/-- Latency category recorded on the `LATENCY_CATEGORY` counter in
`after_request` (branching on `duration` in seconds). -/
def metric_latency_category (duration : ℚ) : String :=
  if duration < 1/5 then "fast"
  else if duration < 1 then "slow"
  else "very_slow"

/-- Latency category placed in the `performance` block of
`log_http_request` (branching on `duration_ms` in milliseconds). -/
def log_latency_category (durationMs : ℚ) : String :=
  if durationMs < 200 then "fast"
  else if durationMs < 1000 then "medium"
  else "slow"

/-- Process-start values of the two gauges that mention the error rate:
the estimator's state gauge and the SLO configuration gauge. -/
structure StartupState where
  errorRateCurrent : ℚ
  sloConfigErrorRate : ℚ
deriving DecidableEq

/-- Module initialization in `main.py` for a given `ERROR_RATE` value:
`SLO_CONFIG_GAUGE.labels(config_type='error_rate', ...)` is set to
`ERROR_RATE_ENV`, while `ERROR_RATE_GAUGE` — the state read back by
`after_request` via `._value._value` — is never set, so it keeps the
prometheus-client gauge default of `0.0`. -/
def startup (errorRateEnv : ℚ) : StartupState :=
  ⟨0, load_error_rate errorRateEnv⟩

/-- Label key of the `ACTIVE_REQUESTS` gauge: `(method, endpoint)`. -/
abbrev GaugeKey := String × String

/-- One operation on the in-flight gauge: `.inc()` or `.dec()` on a key. -/
inductive GaugeOp
  | inc (k : GaugeKey)
  | dec (k : GaugeKey)
deriving DecidableEq

def applyOp (g : GaugeKey → ℤ) : GaugeOp → GaugeKey → ℤ
  | GaugeOp.inc k => fun j => if j = k then g j + 1 else g j
  | GaugeOp.dec k => fun j => if j = k then g j - 1 else g j

def applyOps (g : GaugeKey → ℤ) : List GaugeOp → GaugeKey → ℤ
  | [] => g
  | op :: rest => applyOps (applyOp g op) rest

/-- Gauge operations of `before_request` in `main.py`: exactly one
`ACTIVE_REQUESTS.labels(method, endpoint).inc()`. -/
def before_request_gauge_ops (method endpoint : String) : List GaugeOp :=
  [GaugeOp.inc (method, endpoint)]

/-- Gauge operations of `after_request` in `main.py` for a request whose
start hook ran (`g.start_time` set): exactly one
`ACTIVE_REQUESTS.labels(method, endpoint).dec()`, performed before any
branching on the response, hence independent of the status code. -/
def after_request_gauge_ops (method endpoint : String) (statusCode : ℕ) : List GaugeOp :=
  [GaugeOp.dec (method, endpoint)]

def countInc (ops : List GaugeOp) (k : GaugeKey) : ℕ :=
  ops.countP (fun op => decide (op = GaugeOp.inc k))

def countDec (ops : List GaugeOp) (k : GaugeKey) : ℕ :=
  ops.countP (fun op => decide (op = GaugeOp.dec k))

/-- Observable side effects of the `root` and `users` handlers. -/
inductive Ev
  | latencySimulated
  | businessPageViewLog
  | businessEventInc
  | faultEvaluated
  | operationSuccessLog
  | response200
  | sloViolationLog
  | sloViolationInc
  | response503
  | usersDataBuilt
  | apiSuccessLog
  | usersResponse200
  | apiFailureLog
deriving DecidableEq

/-- The `root` handler in `main.py`, as its ordered side effects: it
simulates latency, logs the `page_view` business event and increments the
`BUSINESS_EVENTS` counter, and only then calls `health_sim()`; when
unhealthy it logs/records the SLO violation and returns 503, when healthy
it logs success and returns 200. -/
def root (cfg : Config) (f : ℕ → ℚ) (i : ℕ) : List Ev × ℕ :=
  let li := simulate_latency cfg f i
  let hr := health_sim cfg f li.2
  ([Ev.latencySimulated, Ev.businessPageViewLog, Ev.businessEventInc,
      Ev.faultEvaluated] ++
    (if hr.1.1 then [Ev.operationSuccessLog, Ev.response200]
     else [Ev.sloViolationLog, Ev.sloViolationInc, Ev.response503]), hr.2)

/-- The `users` handler in `main.py`, as its ordered side effects: it
simulates latency, calls `health_sim()`, and only when healthy builds the
users payload and logs `api_success`; when unhealthy it logs `api_failure`
and returns 503 without running the handler body. -/
def users (cfg : Config) (f : ℕ → ℚ) (i : ℕ) : List Ev × ℕ :=
  let li := simulate_latency cfg f i
  let hr := health_sim cfg f li.2
  ([Ev.latencySimulated, Ev.faultEvaluated] ++
    (if hr.1.1 then [Ev.usersDataBuilt, Ev.apiSuccessLog, Ev.usersResponse200]
     else [Ev.apiFailureLog, Ev.response503]), hr.2)

end ObsDemo

namespace ObsDemo

theorem ewmaN_false_closed (r0 : ℚ) :
    ∀ n, ewmaN false n r0 = r0 * (9/10) ^ n := by
  intro n
  induction n with
  | zero => simp [ewmaN]
  | succ n ih => simp [ewmaN, ewmaStep, ih]; ring

theorem ewmaN_true_closed (r0 : ℚ) :
    ∀ n, ewmaN true n r0
      = r0 * (9/10) ^ n + (1/10) * ∑ i ∈ Finset.range n, (9/10) ^ i := by
  intro n
  induction n with
  | zero => simp [ewmaN]
  | succ n ih =>
    rw [show ewmaN true (n + 1) r0 = ewmaStep true (ewmaN true n r0) from rfl,
      ih, Finset.sum_range_succ', ewmaStep]
    simp only [pow_succ, pow_zero, if_true, ← Finset.mul_sum, ← Finset.sum_mul]
    ring

theorem ewmaN_true_geom (r0 : ℚ) (n : ℕ) :
    ewmaN true n r0 = r0 * (9/10) ^ n + (1 - (9/10) ^ n) := by
  rw [ewmaN_true_closed]
  have h : ((9:ℚ)/10) ≠ 1 := by norm_num
  rw [geom_sum_eq h]
  field_simp
  ring

/-- Claim C1: with outage simulation and simBad enabled, when the outage
draw fires (`f i < 0.05`) the health decision is unhealthy with failure
type `outage`; exactly one draw is consumed (cursor `i + 1`), so the
error-rate check is never evaluated, for every configured error rate. -/
theorem health_sim_outage_precedence (cfg : Config) (f : ℕ → ℚ) (i : ℕ)
    (ho : cfg.outageSim = true) (hs : cfg.simBad = true) (hu : f i < 1/20) :
    health_sim cfg f i = ((false, FailureType.outage), i + 1) := by
  have hout : simulate_outage cfg f i = (true, i + 1) := by
    simp only [simulate_outage, ho, hs, Bool.and_self, if_true,
      Prod.mk.injEq, decide_eq_true_eq, and_true]
    exact hu
  simp [health_sim, hout]

/-- Witness for C1 at a concrete configuration and draw stream. -/
theorem health_sim_outage_precedence_witness :
    health_sim ⟨true, 0, false, 2, true⟩ (fun _ => 1/25) 0
      = ((false, FailureType.outage), 1) :=
  health_sim_outage_precedence ⟨true, 0, false, 2, true⟩ (fun _ => 1/25) 0
    rfl rfl (by norm_num)

/-- Claim C5: with `simBad = false` the health decision is always healthy
(no outage, no error, no draw consumed) and the simulated latency is the
fixed nonzero baseline `0.01`, regardless of the other flags and draws. -/
theorem sim_bad_disabled_healthy_baseline (cfg : Config) (f : ℕ → ℚ) (i : ℕ)
    (h : cfg.simBad = false) :
    health_sim cfg f i = ((true, FailureType.healthy), i) ∧
    simulate_latency cfg f i = (1/100, i) ∧ (1/100 : ℚ) ≠ 0 := by
  refine ⟨?_, ?_, by norm_num⟩
  · simp [health_sim, simulate_outage, simulate_error_rate, h]
  · simp [simulate_latency, h]

/-- Witness for C5 at a concrete configuration with every other switch on. -/
theorem sim_bad_disabled_healthy_baseline_witness :
    health_sim ⟨false, 1, true, 5, true⟩ (fun _ => 0) 0
      = ((true, FailureType.healthy), 0) ∧
    simulate_latency ⟨false, 1, true, 5, true⟩ (fun _ => 0) 0 = (1/100, 0) ∧
    (1/100 : ℚ) ≠ 0 :=
  sim_bad_disabled_healthy_baseline ⟨false, 1, true, 5, true⟩ (fun _ => 0) 0 rfl

/-- Claim C3: each counted completion updates the rolling rate by exactly
`newRate = r * (1 - 0.1) + (isError ? 1 : 0) * 0.1`; after `n` consecutive
updates with constant outcome the rate equals the closed form
`r0 * 0.9^n + 0.1 * Σ_(i<n) 0.9^i` (the sum present exactly for the
all-error stream), and the rate converges to 1 on a constant error stream
and to 0 on a constant success stream. -/
theorem ewma_update_closed_form_convergence (r0 : ℚ) :
    (∀ (isError : Bool) (r : ℚ),
      ewmaStep isError r = r * (1 - 1/10) + (if isError then 1 else 0) * (1/10)) ∧
    (∀ n, ewmaN true n r0
      = r0 * (9/10) ^ n + (1/10) * ∑ i ∈ Finset.range n, (9/10) ^ i) ∧
    (∀ n, ewmaN false n r0 = r0 * (9/10) ^ n + (1/10) * 0) ∧
    Filter.Tendsto (fun n => ewmaN true n r0) Filter.atTop (nhds 1) ∧
    Filter.Tendsto (fun n => ewmaN false n r0) Filter.atTop (nhds 0) := by
  have hq : Filter.Tendsto (fun n : ℕ => ((9:ℚ)/10) ^ n) Filter.atTop (nhds 0) :=
    tendsto_pow_atTop_nhds_zero_of_lt_one (by norm_num) (by norm_num)
  refine ⟨?_, ewmaN_true_closed r0, ?_, ?_, ?_⟩
  · intro isError r
    cases isError <;> norm_num [ewmaStep]
  · intro n
    rw [ewmaN_false_closed]
    ring
  · have h1 : Filter.Tendsto
        (fun n : ℕ => r0 * ((9:ℚ)/10) ^ n + (1 - ((9:ℚ)/10) ^ n))
        Filter.atTop (nhds (r0 * 0 + (1 - 0))) :=
      (hq.const_mul r0).add (tendsto_const_nhds.sub hq)
    simp only [mul_zero, sub_zero, zero_add] at h1
    exact h1.congr fun n => (ewmaN_true_geom r0 n).symm
  · have h0 : Filter.Tendsto (fun n : ℕ => r0 * ((9:ℚ)/10) ^ n)
        Filter.atTop (nhds (r0 * 0)) := hq.const_mul r0
    simp only [mul_zero] at h0
    exact h0.congr fun n => (ewmaN_false_closed r0 n).symm

/-- Claim C9: a completed request on the `metrics` endpoint leaves the
rolling error-rate state unchanged; a completion on any other endpoint
rewrites it with the EWMA step on `status_code >= 400`. -/
theorem metrics_endpoint_excluded_from_ewma (e : String) (statusCode : ℕ) (r : ℚ)
    (he : e ≠ "metrics") :
    update_error_rate "metrics" statusCode r = r ∧
    update_error_rate e statusCode r = ewmaStep (decide (400 ≤ statusCode)) r := by
  constructor
  · simp [update_error_rate]
  · simp [update_error_rate, he]

/-- Witness for C9 on the `users` endpoint with a success status. -/
theorem metrics_endpoint_excluded_from_ewma_witness :
    update_error_rate "metrics" 200 (1/2) = 1/2 ∧
    update_error_rate "users" 200 (1/2) = ewmaStep (decide (400 ≤ 200)) (1/2) :=
  metrics_endpoint_excluded_from_ewma "users" 200 (1/2) (by decide)

/-- Claim C10: for one completed request of duration `d` seconds
(`duration_ms = d * 1000`), the metric counter's category and the
structured log's performance category agree (both `fast`) exactly when
`d < 0.2`; for `0.2 ≤ d < 1` they are `slow` vs. `medium`, and for
`d ≥ 1` they are `very_slow` vs. `slow`. -/
theorem latency_category_metric_log_mismatch (d : ℚ) :
    (d < 1/5 →
      metric_latency_category d = "fast" ∧ log_latency_category (d * 1000) = "fast") ∧
    (1/5 ≤ d → d < 1 →
      metric_latency_category d = "slow" ∧ log_latency_category (d * 1000) = "medium") ∧
    (1 ≤ d →
      metric_latency_category d = "very_slow" ∧ log_latency_category (d * 1000) = "slow") := by
  refine ⟨fun h => ?_, fun h1 h2 => ?_, fun h => ?_⟩
  · rw [metric_latency_category, log_latency_category,
      if_pos h, if_pos (by linarith)]
    exact ⟨rfl, rfl⟩
  · rw [metric_latency_category, log_latency_category,
      if_neg (by linarith), if_pos h2,
      if_neg (by linarith), if_pos (by linarith)]
    exact ⟨rfl, rfl⟩
  · rw [metric_latency_category, log_latency_category,
      if_neg (by linarith), if_neg (by linarith),
      if_neg (by linarith), if_neg (by linarith)]
    exact ⟨rfl, rfl⟩

/-- Witness for C10 in each duration band (0.1 s, 0.5 s, 2 s). -/
theorem latency_category_metric_log_mismatch_witness :
    (metric_latency_category (1/10) = "fast" ∧
      log_latency_category (1/10 * 1000) = "fast") ∧
    (metric_latency_category (1/2) = "slow" ∧
      log_latency_category (1/2 * 1000) = "medium") ∧
    (metric_latency_category 2 = "very_slow" ∧
      log_latency_category (2 * 1000) = "slow") :=
  ⟨(latency_category_metric_log_mismatch (1/10)).1 (by norm_num),
   (latency_category_metric_log_mismatch (1/2)).2.1 (by norm_num) (by norm_num),
   (latency_category_metric_log_mismatch 2).2.2 (by norm_num)⟩

/-- Counterexample to claim C7 as stated: the value stored at config-load
time for `ERROR_RATE=1.5` is `1.5` itself — outside `[0,1]` and unequal
to its clamp, so no clamping happens at load time. -/
theorem load_error_rate_not_clamped :
    ¬ (load_error_rate (3/2) ≤ 1 ∧ load_error_rate (3/2) = clamp01 (3/2)) := by
  intro h
  have := h.1
  norm_num [load_error_rate] at this

/-- Claim C7 amended: configuration load stores the raw `ERROR_RATE` value
unclamped, so it may lie outside `[0,1]`; nevertheless every fault
decision behaves as if the rate were clamped, because the decision
compares a uniform draw `u ∈ [0,1)` against the rate, and that comparison
is unchanged by clamping the rate to `[0,1]`. -/
theorem error_rate_unclamped_but_decision_agrees (cfg : Config) (f : ℕ → ℚ) (i : ℕ)
    (h0 : 0 ≤ f i) (h1 : f i < 1) :
    load_error_rate cfg.errorRate = cfg.errorRate ∧
    simulate_error_rate cfg f i = simulate_error_rate (clampConfig cfg) f i := by
  refine ⟨rfl, ?_⟩
  have hiff : (f i < cfg.errorRate) ↔ (f i < clamp01 cfg.errorRate) := by
    unfold clamp01
    constructor
    · intro hlt
      exact lt_of_lt_of_le (lt_min h1 hlt) (le_max_right _ _)
    · intro hlt
      rcases le_or_lt (min 1 cfg.errorRate) 0 with hc | hc
      · rw [max_eq_left hc] at hlt; linarith
      · rw [max_eq_right hc.le] at hlt
        exact lt_of_lt_of_le hlt (min_le_right _ _)
  simp only [simulate_error_rate, clampConfig]
  rw [decide_eq_decide.mpr hiff]

/-- Witness for C7's amended statement at `ERROR_RATE = 1.5`, draw `0.5`. -/
theorem error_rate_unclamped_but_decision_agrees_witness :
    load_error_rate ((⟨true, 3/2, false, 2, false⟩ : Config).errorRate) = 3/2 ∧
    simulate_error_rate ⟨true, 3/2, false, 2, false⟩ (fun _ => 1/2) 0
      = simulate_error_rate (clampConfig ⟨true, 3/2, false, 2, false⟩) (fun _ => 1/2) 0 :=
  error_rate_unclamped_but_decision_agrees ⟨true, 3/2, false, 2, false⟩
    (fun _ => 1/2) 0 (by norm_num) (by norm_num)

/-- Counterexample to claim C8 as stated: with `MAX_LATENCY = 0 ≤ 0.1`,
latency simulation on and draw `0.5`, the sampled latency is
`0.1 + (0 - 0.1) * 0.5 = 0.05`, not the degenerate point `0.1`. -/
theorem simulate_latency_not_degenerate :
    (simulate_latency ⟨true, 0, true, 0, false⟩ (fun _ => 1/2) 0).1 ≠ 1/10 := by
  norm_num [simulate_latency]

/-- Claim C8 amended: with `maxLatencySeconds ≤ 0.1` and latency
simulation active, sampling is total (never crashes): it returns
`0.1 + (maxLatency - 0.1) * u`, which lies between `maxLatency` and
`0.1`; the range degenerates to exactly `0.1` only when
`maxLatency = 0.1`. -/
theorem simulate_latency_low_max_bounds (cfg : Config) (f : ℕ → ℚ) (i : ℕ)
    (hl : cfg.latencySim = true) (hs : cfg.simBad = true)
    (hm : cfg.maxLatency ≤ 1/10) (h0 : 0 ≤ f i) (h1 : f i < 1) :
    (simulate_latency cfg f i).1 = 1/10 + (cfg.maxLatency - 1/10) * f i ∧
    cfg.maxLatency ≤ (simulate_latency cfg f i).1 ∧
    (simulate_latency cfg f i).1 ≤ 1/10 ∧
    (cfg.maxLatency = 1/10 → (simulate_latency cfg f i).1 = 1/10) := by
  have hval : (simulate_latency cfg f i).1 = 1/10 + (cfg.maxLatency - 1/10) * f i := by
    simp [simulate_latency, hl, hs]
  refine ⟨hval, ?_, ?_, ?_⟩
  · rw [hval]; nlinarith
  · rw [hval]; nlinarith
  · intro heq; rw [hval, heq]; ring

/-- Witness for C8's amended statement at `MAX_LATENCY = 0.05`, draw `1/3`. -/
theorem simulate_latency_low_max_bounds_witness :
    (simulate_latency ⟨true, 0, true, 1/20, false⟩ (fun _ => 1/3) 0).1
      = 1/10 + (1/20 - 1/10) * (1/3) ∧
    (1/20 : ℚ) ≤ (simulate_latency ⟨true, 0, true, 1/20, false⟩ (fun _ => 1/3) 0).1 ∧
    (simulate_latency ⟨true, 0, true, 1/20, false⟩ (fun _ => 1/3) 0).1 ≤ 1/10 ∧
    ((1/20 : ℚ) = 1/10 →
      (simulate_latency ⟨true, 0, true, 1/20, false⟩ (fun _ => 1/3) 0).1 = 1/10) :=
  simulate_latency_low_max_bounds ⟨true, 0, true, 1/20, false⟩ (fun _ => 1/3) 0
    rfl rfl (by norm_num) (by norm_num) (by norm_num)

/-- Counterexample to claim C4 as stated: with `ERROR_RATE = 0.2` the
estimator's state at process start is `0`, not the configured `0.2`. -/
theorem startup_error_rate_not_configured :
    ¬ (startup (1/5)).errorRateCurrent = 1/5 := by
  norm_num [startup]

/-- Claim C4 amended: at process start the rolling estimator's state is
the prometheus gauge default `0` — it is never initialized to the
configured error rate; the configured `ERROR_RATE` is published only in
the separate SLO configuration gauge. -/
theorem startup_error_rate_state (r : ℚ) :
    (startup r).errorRateCurrent = 0 ∧ (startup r).sloConfigErrorRate = r :=
  ⟨rfl, rfl⟩

theorem applyOps_eval (ops : List GaugeOp) :
    ∀ (g : GaugeKey → ℤ) (k : GaugeKey),
      applyOps g ops k = g k + countInc ops k - countDec ops k := by
  induction ops with
  | nil => intro g k; simp [applyOps, countInc, countDec]
  | cons op rest ih =>
    intro g k
    rw [show applyOps g (op :: rest) = applyOps (applyOp g op) rest from rfl, ih]
    cases op with
    | inc j =>
      rcases eq_or_ne j k with hj | hj
      · simp [applyOp, countInc, countDec, List.countP_cons, hj]
        ring
      · simp [applyOp, countInc, countDec, List.countP_cons, hj, hj.symm]
    | dec j =>
      rcases eq_or_ne j k with hj | hj
      · simp [applyOp, countInc, countDec, List.countP_cons, hj]
        ring
      · simp [applyOp, countInc, countDec, List.countP_cons, hj, hj.symm]

/-- Claim C2: `before_request` performs exactly one increment of the
in-flight gauge and `after_request` exactly one decrement, independent of
the response status; consequently, after any operation sequence in which
every key's increments are matched by decrements (every started request
completed), the gauge equals its pre-sequence value. -/
theorem active_requests_gauge_balance (g : GaugeKey → ℤ) (ops : List GaugeOp)
    (hbal : ∀ k, countInc ops k = countDec ops k) :
    applyOps g ops = g ∧
    (∀ m e, before_request_gauge_ops m e = [GaugeOp.inc (m, e)]) ∧
    (∀ m e sc, after_request_gauge_ops m e sc = [GaugeOp.dec (m, e)]) := by
  refine ⟨funext fun k => ?_, fun m e => rfl, fun m e sc => rfl⟩
  rw [applyOps_eval, hbal k]
  ring

/-- Witness for C2: two interleaved requests (one success, one fault 503)
start and complete; the gauge returns to zero everywhere. -/
theorem active_requests_gauge_balance_witness :
    applyOps (fun _ => 0)
      (before_request_gauge_ops "GET" "root" ++ before_request_gauge_ops "GET" "users" ++
        after_request_gauge_ops "GET" "users" 503 ++ after_request_gauge_ops "GET" "root" 200)
      = (fun _ => 0) ∧
    (∀ m e, before_request_gauge_ops m e = [GaugeOp.inc (m, e)]) ∧
    (∀ m e sc, after_request_gauge_ops m e sc = [GaugeOp.dec (m, e)]) :=
  active_requests_gauge_balance (fun _ => 0) _ (fun k => by
    by_cases h1 : ("GET", "root") = k <;> by_cases h2 : ("GET", "users") = k <;>
      simp [countInc, countDec, before_request_gauge_ops, after_request_gauge_ops,
        List.countP_cons, h1, h2])

/-- Counterexample to claim C6 as stated: in the `root` handler with
simBad on, error rate 1 and draw `0.5`, the decision is unhealthy (503 is
returned), yet the `page_view` business event and its counter increment —
side-effecting business logic — did run. -/
theorem root_business_event_on_fault :
    Ev.businessEventInc ∈ (root ⟨true, 1, false, 2, false⟩ (fun _ => 1/2) 0).1 ∧
    Ev.businessPageViewLog ∈ (root ⟨true, 1, false, 2, false⟩ (fun _ => 1/2) 0).1 ∧
    Ev.response503 ∈ (root ⟨true, 1, false, 2, false⟩ (fun _ => 1/2) 0).1 := by
  have hs : (root ⟨true, 1, false, 2, false⟩ (fun _ => 1/2) 0).1
      = [Ev.latencySimulated, Ev.businessPageViewLog, Ev.businessEventInc,
         Ev.faultEvaluated, Ev.sloViolationLog, Ev.sloViolationInc, Ev.response503] := by
    norm_num [root, simulate_latency, health_sim, simulate_outage, simulate_error_rate]
  rw [hs]
  refine ⟨?_, ?_, ?_⟩ <;> simp

/-- Claim C6 amended: in `users`, the handler body (payload construction,
success log/response) runs only when the health decision is healthy and a
503 fault response is synthesized otherwise; in `root`, only the success
log and 200 response are gated on health — the `page_view` business event
and its counter run before the health decision on every request. -/
theorem handler_health_gating (cfg : Config) (f : ℕ → ℚ) (i : ℕ) :
    Ev.businessEventInc ∈ (root cfg f i).1 ∧
    Ev.businessPageViewLog ∈ (root cfg f i).1 ∧
    ((health_sim cfg f (simulate_latency cfg f i).2).1.1 = false →
      Ev.operationSuccessLog ∉ (root cfg f i).1 ∧
      Ev.response200 ∉ (root cfg f i).1 ∧
      Ev.response503 ∈ (root cfg f i).1 ∧
      Ev.usersDataBuilt ∉ (users cfg f i).1 ∧
      Ev.apiSuccessLog ∉ (users cfg f i).1 ∧
      Ev.response503 ∈ (users cfg f i).1) ∧
    ((health_sim cfg f (simulate_latency cfg f i).2).1.1 = true →
      Ev.usersDataBuilt ∈ (users cfg f i).1 ∧
      Ev.apiSuccessLog ∈ (users cfg f i).1 ∧
      Ev.response503 ∉ (users cfg f i).1) := by
  refine ⟨by simp [root], by simp [root], fun h => ?_, fun h => ?_⟩
  · refine ⟨?_, ?_, ?_, ?_, ?_, ?_⟩ <;> simp [root, users, h]
  · refine ⟨?_, ?_, ?_⟩ <;> simp [root, users, h]

/-- Witness for C6's amended statement: a fault request (error rate 1)
skips the `users` body and returns 503; a healthy request (error rate 0)
runs it. -/
theorem handler_health_gating_witness :
    (Ev.response503 ∈ (users ⟨true, 1, false, 2, false⟩ (fun _ => 1/2) 0).1 ∧
      Ev.usersDataBuilt ∉ (users ⟨true, 1, false, 2, false⟩ (fun _ => 1/2) 0).1) ∧
    Ev.usersDataBuilt ∈ (users ⟨true, 0, false, 2, false⟩ (fun _ => 1/2) 0).1 := by
  have hbad : (health_sim ⟨true, 1, false, 2, false⟩ (fun _ => 1/2)
      (simulate_latency ⟨true, 1, false, 2, false⟩ (fun _ => 1/2) 0).2).1.1 = false := by
    norm_num [health_sim, simulate_outage, simulate_error_rate, simulate_latency]
  have hgood : (health_sim ⟨true, 0, false, 2, false⟩ (fun _ => 1/2)
      (simulate_latency ⟨true, 0, false, 2, false⟩ (fun _ => 1/2) 0).2).1.1 = true := by
    norm_num [health_sim, simulate_outage, simulate_error_rate, simulate_latency]
  have h1 := (handler_health_gating ⟨true, 1, false, 2, false⟩ (fun _ => 1/2) 0).2.2.1 hbad
  have h2 := (handler_health_gating ⟨true, 0, false, 2, false⟩ (fun _ => 1/2) 0).2.2.2 hgood
  exact ⟨⟨h1.2.2.2.2.2, h1.2.2.2.1⟩, h2.1⟩

end ObsDemo
